import Mathlib

/-!
Verification of the property-accessor core of `src/include/property_accessor.h`
(equivalently `property_accessor_nomacros.h`, whose core is identical).

The header is a C++ template library.  We shallowly embed its compile-time
machinery (classification, SFINAE gating, static_asserts, option detection,
layout checks) as boolean/Option-valued Lean functions of the type-level facts
they inspect, and its runtime semantics (proxy reference forwarding, value
get/modify/set triples, member composition, right-hand operand substitution)
as explicit state-passing functions.

Reference (lvalue) semantics is modelled with a heap `Nat → T`: a C++ lvalue
reference produced by a proxy rule's `get()` is a location (`Nat`), and
assignment through it is a store at that location.  A value rule is modelled
as `get : σ → T × σ` (a getter may have observable effects on the program
state `σ`) together with `set : T → σ → σ`.
-/

namespace PropAccess

/-! ## C++ type categories and accessor classification

`detail::property_implementation` (property_accessor.h lines 490-505) selects
`proxy` when `std::is_lvalue_reference_v<getter_result_t<const GetSet_t>>`
holds and `value` when `std::is_object_v<...>` holds.  C++ types partition
into lvalue references, rvalue references, object types, function types and
`void`; `is_object` is true exactly for object types (neither reference nor
function nor void). -/

inductive TypeCat : Type
| lvalueRef
| rvalueRef
| objectTy
| functionTy
| voidTy
deriving DecidableEq

def is_lvalue_reference : TypeCat → Bool
| .lvalueRef => true
| _ => false

def is_object : TypeCat → Bool
| .objectTy => true
| _ => false

inductive AccessorKind : Type
| proxyAcc
| valueAcc
deriving DecidableEq, Fintype

/-- `detail::property_implementation` (lines 490-505): the partial
specialization enabled by `is_lvalue_reference` yields `proxy`, the one
enabled by `is_object` yields `value`; if neither enable-condition holds,
no specialization exists (`none`). -/
def property_implementation (c : TypeCat) : Option AccessorKind :=
  if is_lvalue_reference c then some AccessorKind.proxyAcc
  else if is_object c then some AccessorKind.valueAcc
  else none

/-! ## Static assertions of the proxy accessor (lines 376-404)

`proxy<GetSet_t>` carries two static_asserts (lines 380-383): the getter must
return an lvalue reference, and `has_setter<GetSet_t, getter_result_t<const
GetSet_t>>` must be false.  We model the assertion outcome as an
`Option String`: `none` means instantiation succeeds, `some msg` means a
static failure with the given descriptive message. -/

def proxy_static_assert (returns_lvalue_ref has_setter_at_ref : Bool) :
    Option String :=
  if !returns_lvalue_ref then
    some "Proxy property accessor requires an lvalue reference type."
  else if has_setter_at_ref then
    some "Proxy property accessor does not use set() function; assignments are forwarded to get()."
  else none

/-! ## Proxy accessor runtime semantics (lines 376-404)

A proxy rule's `get()` returns an lvalue reference; we model it as a
location in a heap.  `PState` additionally counts calls of
`_property_get()` so that single-evaluation claims are expressible. -/

def writeRef {T : Type} (h : Nat → T) (r : Nat) (x : T) : Nat → T :=
  fun i => if i = r then x else h i

structure ProxyAcc : Type where
  addr : Nat

structure PState (T : Type) : Type where
  heap : Nat → T
  getCalls : Nat

/-- `_property_get()` on a proxy accessor (lines 288-289): calls the rule's
`get()`, which yields the lvalue (a location); the call is counted. -/
def proxy_get {T : Type} (p : ProxyAcc) (s : PState T) : Nat × PState T :=
  (p.addr, { s with getCalls := s.getCalls + 1 })

/-- Plain assignment on a proxy (line 394, `EDB_tmp_FwdBiOp(=)`):
`this->_property_get() = y` — one `_property_get()` call, then a store
through the resulting lvalue. -/
def proxy_assign {T : Type} (p : ProxyAcc) (x : T) (s : PState T) : PState T :=
  let g := proxy_get p s
  { g.2 with heap := writeRef g.2.heap g.1 x }

/-- Compound assignment on a proxy (lines 397-399): `this->_property_get()
OP= y` — one `_property_get()` call; the operation reads and rewrites the
referent in place through the same lvalue, with no intermediate copy. -/
def proxy_compound {T Y : Type} (op : T → Y → T) (p : ProxyAcc) (y : Y)
    (s : PState T) : PState T :=
  let g := proxy_get p s
  { g.2 with heap := writeRef g.2.heap g.1 (op (g.2.heap g.1) y) }

/-- Increment/decrement on a proxy (lines 402-403): `OP this->_property_get()`
— one `_property_get()` call, in-place update of the referent. -/
def proxy_incr_decr {T : Type} (f : T → T) (p : ProxyAcc) (s : PState T) :
    PState T :=
  let g := proxy_get p s
  { g.2 with heap := writeRef g.2.heap g.1 (f (g.2.heap g.1)) }

/-- Address-of on a proxy (line 391, `EDB_tmp_FwdPrefOp(&)`):
`& this->_property_get()` — the address of the lvalue returned by the
rule's `get()`, i.e. the referent's location. -/
def proxy_addr_of {T : Type} (p : ProxyAcc) (s : PState T) : Nat × PState T :=
  proxy_get p s

/-- `operator=(const proxy &other)` const overload (line 387):
`this->_property_get() = *other`.  `*other` goes through
`common::operator*` with pointer emulation active and yields the value of
`other`'s referent.  The accessor object itself is returned unchanged:
the operation writes through the destination's referent, never rebinds. -/
def proxy_assign_from_proxy_c {T : Type} (dest other : ProxyAcc)
    (s : PState T) : ProxyAcc × PState T :=
  let v := s.heap other.addr
  (dest, proxy_assign dest v s)

/-- `operator=(const proxy &other)` non-const overload (line 388); its body
is identical to the const overload's. -/
def proxy_assign_from_proxy_m {T : Type} (dest other : ProxyAcc)
    (s : PState T) : ProxyAcc × PState T :=
  let v := s.heap other.addr
  (dest, proxy_assign dest v s)

/-! ## Value accessor runtime semantics (lines 406-447)

A value rule exposes `get()` returning a plain value (possibly with
observable effects, so `get : σ → T × σ`) and optionally `set(v)`
(`set : T → σ → σ`). -/

structure ValueRule (σ T : Type) : Type where
  get : σ → T × σ
  set : T → σ → σ

/-- Compound assignment / assignment on a value accessor
(`EDB_tmp_ValueAssignOp_`, lines 410-412): the body is
`auto x = this->_property_get(); x OP= y; this->_property_set(x);`. -/
def value_compound_impl {σ T Y : Type} (r : ValueRule σ T) (op : T → Y → T)
    (y : Y) (s : σ) : σ :=
  let g := r.get s
  let x := op g.1 y
  r.set x g.2

/-- Modelled from the spec: the triple `tmp = get(); tmp OP= y; set(tmp);`
that the spec (section 8 and section 4.5) states compound assignment on a
value accessor is equivalent to. -/
def value_compound_spec {σ T Y : Type} (r : ValueRule σ T) (op : T → Y → T)
    (y : Y) (s : σ) : σ :=
  let tmp := (r.get s).1
  let s1 := (r.get s).2
  let tmp2 := op tmp y
  r.set tmp2 s1

inductive RuleEvent : Type
| getEv
| setEv
deriving DecidableEq

/-- Instrumentation wrapper: the same rule over a state extended with an
event trace, so that the number and order of `get()`/`set()` calls an
operation performs become observable state. -/
def traced {σ T : Type} (r : ValueRule σ T) :
    ValueRule (σ × List RuleEvent) T where
  get := fun s => ((r.get s.1).1, ((r.get s.1).2, s.2 ++ [RuleEvent.getEv]))
  set := fun x s => (r.set x s.1, s.2 ++ [RuleEvent.setEv])

/-- Plain assignment through a value accessor from a foreign value
(`EDB_tmp_ValueAssignOp(=)`, line 437 instantiated at `OP` = `=`): the
local copy is overwritten by `y` and written back through `set`. -/
def value_assign {σ T : Type} (r : ValueRule σ T) (y : T) (s : σ) : σ :=
  let g := r.get s
  r.set y g.2

/-! ## Compile-time availability of value-accessor mutation operators

`EDB_tmp_ValueAssignOp_` (lines 410-412) declares each compound-assignment
overload with the SFINAE trailing return type
`decltype(std::declval<getter_result_t<CONST GetSet_t>&>() OP y, *this)`:
the only constraint is that the underlying value type supports `OP`.
The body calls `this->_property_set(x)`, and `_property_set`
(lines 292-297) is enable_if-gated on `has_setter`; with no setter the call
has no viable overload, so a use fails to compile when the operator body is
instantiated.  `EDB_tmp_ValueIncrPrefOp_` / `EDB_tmp_ValueIncrPostOp_`
(lines 413-414) have a deduced return type and no SFINAE constraint at all:
they are declared unconditionally and any failure surfaces at body
instantiation. -/

/-- Whether a compound-assignment overload of `value<GetSet_t>` participates
in the interface, as a function of whether the value type supports the
operator and whether the rule has a setter (lines 410-412). -/
def value_assignOp_declared (op_supported_on_value has_set : Bool) : Bool :=
  op_supported_on_value

/-- Whether a use of a compound-assignment overload of `value<GetSet_t>`
compiles: overload resolution (line 411) plus instantiation of the body,
whose `_property_set` call (line 412) requires `has_setter`
(lines 292-297). -/
def value_assignOp_use_compiles (op_supported_on_value has_set : Bool) :
    Bool :=
  op_supported_on_value && has_set

/-- Whether an increment/decrement overload of `value<GetSet_t>` is
declared (lines 413-414, 444-446): unconditionally. -/
def value_incrOp_declared (op_supported_on_value has_set : Bool) : Bool :=
  true

/-- Whether a use of an increment/decrement overload of `value<GetSet_t>`
compiles: the body (lines 413-414) applies the operator to a local copy and
calls `_property_set`, so it requires both. -/
def value_incrOp_use_compiles (op_supported_on_value has_set : Bool) :
    Bool :=
  op_supported_on_value && has_set

/-- Whether a use of a mutation operator on a value accessor can be
rejected at runtime: never — the header has no runtime failure path; every
rejection above is a compile-time one. -/
def value_mutation_runtime_rejection : Bool := false

/-! ## Layout model (lines 234-282)

`mimic<T, GetSet_t>` specializations hold `union { GetSet_t _property_getset;
... }`; `common<GetSet_t>` derives from the selected `mimic` and adds only
member functions and a static constexpr member (no object storage), and
`proxy`/`value` derive from `common` adding only member functions.  Hence an
accessor's storage layout is its `mimic` base's layout.  `common` verifies
with two static_asserts (lines 281-282) that the selected `mimic`'s size and
alignment equal the rule's; both `proxy` and `value` derive from `common`,
so the check runs wherever an accessor type is instantiated. -/

structure Layout : Type where
  size : Nat
  align : Nat
deriving DecidableEq

/-- Layout of the primary `mimic` template (lines 234-242) and of the
class/union default specialization (lines 248-259): a union whose only
variant with storage is `GetSet_t _property_getset`, so the layout is the
rule's layout. -/
def mimic_default_layout (ruleL : Layout) : Layout := ruleL

/-- Instantiating `common<GetSet_t>` (lines 275-282) over a rule with layout
`ruleL` whose selected `mimic` specialization has layout `mimicL`: the two
static_asserts compare size and alignment; on success the resulting
accessor layout is the `mimic` base's layout (the derived classes add no
data members). -/
def common_instantiate (mimicL ruleL : Layout) : Option Layout :=
  if mimicL.size = ruleL.size ∧ mimicL.align = ruleL.align then some mimicL
  else none

/-- Layout of an instantiated `proxy<GetSet_t>` (lines 376-404): derives
from `common`, adds no data members. -/
def proxy_layout (mimicL ruleL : Layout) : Option Layout :=
  common_instantiate mimicL ruleL

/-- Layout of an instantiated `value<GetSet_t>` (lines 419-447): derives
from `common`, adds no data members. -/
def value_layout (mimicL ruleL : Layout) : Option Layout :=
  common_instantiate mimicL ruleL

/-! ## Member composition (`getset_member`, lines 453-484)

A C++ pointer-to-member of a data member is modelled as a lens with the two
laws every genuine data member satisfies: reading a member just written
yields the written value, and writing back the value just read is the
identity. -/

structure MemberPtr (Obj F : Type) : Type where
  view : Obj → F
  update : Obj → F → Obj
  view_update : ∀ o v, view (update o v) = v
  update_view : ∀ o, update o (view o) = o

/-- Proxy case of `getset_member` (lines 457-465): the parent rule's `get()`
returns a reference to an object in the heap; the composed rule's `get()`
is `GetSet_t::get().*PointerToMember` — a reference to the member
subobject of the same storage.  Reading through it: -/
def member_proxy_read {Obj F : Type} (a : ProxyAcc) (M : MemberPtr Obj F)
    (h : Nat → Obj) : F :=
  M.view (h a.addr)

/-- Writing through the composed proxy member accessor: a store through the
member reference updates exactly that member of the referent in place. -/
def member_proxy_write {Obj F : Type} (a : ProxyAcc) (M : MemberPtr Obj F)
    (v : F) (h : Nat → Obj) : Nat → Obj :=
  writeRef h a.addr (M.update (h a.addr) v)

/-- Value case of `getset_member`, getter (lines 474-475):
`GetSet_t::get().*PointerToMember` returned by value
(`std::remove_reference_t<Member_t>`). -/
def member_value_get {σ Obj F : Type} (R : ValueRule σ Obj)
    (M : MemberPtr Obj F) (s : σ) : F × σ :=
  let g := R.get s
  (M.view g.1, g.2)

/-- Value case of `getset_member`, setter (lines 477-480):
`auto x = GetSet_t::get(); x.*PointerToMember = y; GetSet_t::set(move(x));`. -/
def member_value_set {σ Obj F : Type} (R : ValueRule σ Obj)
    (M : MemberPtr Obj F) (v : F) (s : σ) : σ :=
  let g := R.get s
  R.set (M.update g.1 v) g.2

/-- The `property_t` chosen by `getset_member` (lines 461, 472): the proxy
specialization composes to a proxy accessor, the value specialization to a
value accessor. -/
def getset_member_kind : AccessorKind → AccessorKind
| .proxyAcc => .proxyAcc
| .valueAcc => .valueAcc

/-! ## Right-hand operand substitution (`EDB_tmp_FwdRhsOp_`, lines 507-524)

Namespace-scope `operator OP(X &&x, const common<GetSet_t> &p)` is
enable_if-gated on `!is_property_accessor_v<X>` and evaluates
`x OP p._property_get()`.  We model availability through `Option`: `none`
when the left operand is itself an accessor (the overload does not
participate), otherwise the substituted result. -/

def fwd_rhs_op {X T R σ : Type} (x_is_accessor : Bool) (op : X → T → R)
    (x : X) (r : ValueRule σ T) (s : σ) : Option R :=
  if x_is_accessor then none
  else some (op x (r.get s).1)

/-! ## Pointer-emulation option detection (lines 217-222, 244-259, 284-285)

`detail::option_pointer_emulation<T>` (generated at lines 217-222) is true
iff the name `T::_property_option_pointer_emulation` is well formed.
`common<GetSet_t>` evaluates `option_pointer_emulation<common>::value`
(line 285) — querying *itself*.  Member lookup in `common` finds
`common`'s own declaration of `_property_option_pointer_emulation` (the
very static member at lines 284-285, whose declared type `bool` is known
independently of its value) before any marker inherited from the `mimic`
base, so the detection succeeds for every instantiation. -/

/-- Whether a particular `mimic<T, GetSet_t>` specialization declares the
`_property_option_pointer_emulation` marker: the primary template
(lines 234-242) does not; the default class/union specialization
(lines 248-259) declares it as an enumerator. -/
def mimic_declares_pe_marker (t_is_class_or_union : Bool) : Bool :=
  t_is_class_or_union

/-- Whether `common<GetSet_t>` itself declares a member named
`_property_option_pointer_emulation`: it does, at lines 284-285. -/
def common_declares_pe_marker : Bool := true

/-- C++ member-name lookup in `common`: its own declaration if present,
otherwise the one inherited from the `mimic` base. -/
def common_pe_lookup (t_is_class_or_union : Bool) : Bool :=
  common_declares_pe_marker || mimic_declares_pe_marker t_is_class_or_union

/-- `detail::option_pointer_emulation<T>::value` (lines 217-222) applied to
a type: true iff the marker name resolves on that type. -/
def option_pointer_emulation (t_declares_marker : Bool) : Bool :=
  t_declares_marker

/-- The value of `common<GetSet_t>::_property_option_pointer_emulation`
(lines 284-285), as a function of whether the decayed getter-result type is
a class or union (which decides the `mimic` specialization when the user
has not specialized `mimic`). -/
def common_pointer_emulation (t_is_class_or_union : Bool) : Bool :=
  option_pointer_emulation (common_pe_lookup t_is_class_or_union)

inductive StarMode : Type
| yieldsGet
| derefsGet
deriving DecidableEq

/-- `common::operator*` (lines 354-355): with pointer emulation it returns
`this->_property_get()` itself, otherwise `*this->_property_get()`. -/
def op_star (pe : Bool) : StarMode :=
  if pe then StarMode.yieldsGet else StarMode.derefsGet

/-! ## Concrete rules and member pointers used as inputs -/

/-- The member pointer `&Pair::fst` on `Int × Int`, as a lens. -/
def fstMember : MemberPtr (Int × Int) Int where
  view := fun o => o.1
  update := fun o v => (v, o.2)
  view_update := fun _ _ => rfl
  update_view := fun _ => rfl

/-- A concrete lossy value rule (of the same shape as the header's own
`x_times_2` example, whose `set` divides by two and so loses information):
here `set` discards the written value entirely, resetting the state to 0. -/
def lossyRule : ValueRule Int (Int × Int) where
  get := fun s => ((s, 0), s)
  set := fun _ _ => 0

/-- A concrete lossless value rule: the state is the stored pair itself. -/
def storeRule : ValueRule (Int × Int) (Int × Int) where
  get := fun s => (s, s)
  set := fun x _ => x

/-- A concrete value rule wrapping an integer: the state is the integer. -/
def intStoreRule : ValueRule Int Int where
  get := fun s => (s, s)
  set := fun x _ => x

end PropAccess

open PropAccess

/-! # Claims -/

/-- C1: For every Proxy accessor `p` over referent `r` (the location
`p.addr`), `p = x` makes subsequent reads of `r` yield `x`, and address-of
on `p` yields the address of `r`; every assignment-family operator
(assignment, each compound assignment, increment/decrement) acts directly
on the referent returned by `get()`, with `get()` evaluated exactly once
(the call counter rises by exactly 1) and no intermediate copy (the result
state is exactly a single in-place store at the referent). -/
theorem C1_proxy_forwarding {T Y : Type} (p : ProxyAcc) (x : T)
    (s : PState T) :
    ((proxy_assign p x s).heap p.addr = x)
    ∧ (proxy_assign p x s
        = { heap := writeRef s.heap p.addr x, getCalls := s.getCalls + 1 })
    ∧ ((proxy_addr_of p s).1 = p.addr)
    ∧ (∀ (op : T → Y → T) (y : Y),
        proxy_compound op p y s
          = { heap := writeRef s.heap p.addr (op (s.heap p.addr) y),
              getCalls := s.getCalls + 1 })
    ∧ (∀ f : T → T,
        proxy_incr_decr f p s
          = { heap := writeRef s.heap p.addr (f (s.heap p.addr)),
              getCalls := s.getCalls + 1 }) := by
  refine ⟨?_, rfl, rfl, fun op y => rfl, fun f => rfl⟩
  simp [proxy_assign, proxy_get, writeRef]

/-- C2: For every Value accessor with a setter and every compound-assignment
operator `OP`, `v OP= y` produces the same final underlying state and
observable effects as the spec's triple `tmp = get(); tmp OP= y; set(tmp);`,
and (on the event-traced rule) performs exactly one `get()` call followed by
exactly one `set()` call. -/
theorem C2_value_compound_refines_triple {σ T Y : Type} (r : ValueRule σ T)
    (op : T → Y → T) (y : Y) (s : σ) :
    (value_compound_impl r op y s = value_compound_spec r op y s)
    ∧ (∀ log : List RuleEvent,
        value_compound_impl (traced r) op y (s, log)
          = (value_compound_impl r op y s,
             log ++ [RuleEvent.getEv, RuleEvent.setEv])) := by
  constructor
  · rfl
  · intro log
    simp [value_compound_impl, traced]

/-- C3: A GetSet rule whose `get()` returns an lvalue reference is
classified as a proxy accessor, and if it additionally provides a `set()`
(callable with the getter's reference result, as the spec's set contract
requires), instantiating that accessor is rejected at compile time by a
static_assert carrying a descriptive (nonempty) message. -/
theorem C3_illegal_rule_rejected (returns_ref has_set : Bool)
    (h1 : returns_ref = true) (h2 : has_set = true) :
    (property_implementation TypeCat.lvalueRef = some AccessorKind.proxyAcc)
    ∧ (∃ msg : String,
        proxy_static_assert returns_ref has_set = some msg ∧ msg ≠ "") := by
  subst h1; subst h2
  refine ⟨rfl, ?_⟩
  refine ⟨"Proxy property accessor does not use set() function; assignments are forwarded to get().", rfl, ?_⟩
  decide

/-- C3 witness: the theorem applied at the concrete illegal rule shape. -/
theorem C3_illegal_rule_rejected_witness :
    (property_implementation TypeCat.lvalueRef = some AccessorKind.proxyAcc)
    ∧ (∃ msg : String,
        proxy_static_assert true true = some msg ∧ msg ≠ "") :=
  C3_illegal_rule_rejected true true rfl rfl

/-- C4 counterexample: for a value accessor whose rule has no setter but
whose value type supports the operator, the compound-assignment overload is
declared (participates in the interface), and increment/decrement overloads
are declared unconditionally — contradicting the claim that the operator
overloads are absent at compile time. -/
theorem C4_counterexample :
    ¬ (value_assignOp_declared true false = false)
    ∧ value_assignOp_declared true false = true
    ∧ value_incrOp_declared true false = true
    ∧ value_incrOp_declared false false = true := by decide

/-- C4 (amended): For every Value accessor whose rule has no `set()`, any
attempted use of an assignment-family or increment/decrement operator fails
to compile (never a runtime rejection); however the overloads are not
absent from the interface: compound-assignment overloads are declared
whenever the value type supports the operator (the SFINAE constraint checks
only the operator expression), and increment/decrement overloads are
declared unconditionally — the failure occurs at instantiation of the
operator body, where `_property_set` has no viable overload. -/
theorem C4_no_setter_mutation (op_supported : Bool) :
    value_assignOp_use_compiles op_supported false = false
    ∧ value_incrOp_use_compiles op_supported false = false
    ∧ value_assignOp_declared op_supported false = op_supported
    ∧ value_incrOp_declared op_supported false = true
    ∧ value_mutation_runtime_rejection = false := by
  cases op_supported <;> decide

/-- C5: classification is a function of the getter's return-type category
alone; for every GetSet rule (getter returning an lvalue reference or an
object type, per the data model), an lvalue-reference result selects Proxy,
an object (non-reference) result selects Value, exactly one classification
applies, and no classification other than these two exists. -/
theorem C5_classification (c : TypeCat)
    (h : is_lvalue_reference c = true ∨ is_object c = true) :
    (property_implementation c = some AccessorKind.proxyAcc
        ↔ is_lvalue_reference c = true)
    ∧ (property_implementation c = some AccessorKind.valueAcc
        ↔ is_object c = true)
    ∧ ((property_implementation c).isSome = true)
    ∧ ¬ (is_lvalue_reference c = true ∧ is_object c = true)
    ∧ (∀ k : AccessorKind,
        k = AccessorKind.proxyAcc ∨ k = AccessorKind.valueAcc) := by
  cases c <;> revert h <;> decide

/-- C5 witness: the theorem applied at the lvalue-reference category. -/
theorem C5_classification_witness :
    (property_implementation TypeCat.lvalueRef = some AccessorKind.proxyAcc
        ↔ is_lvalue_reference TypeCat.lvalueRef = true)
    ∧ (property_implementation TypeCat.lvalueRef = some AccessorKind.valueAcc
        ↔ is_object TypeCat.lvalueRef = true)
    ∧ ((property_implementation TypeCat.lvalueRef).isSome = true)
    ∧ ¬ (is_lvalue_reference TypeCat.lvalueRef = true
        ∧ is_object TypeCat.lvalueRef = true)
    ∧ (∀ k : AccessorKind,
        k = AccessorKind.proxyAcc ∨ k = AccessorKind.valueAcc) :=
  C5_classification TypeCat.lvalueRef (Or.inl rfl)

/-- C6: whenever an accessor type is instantiated, the static layout check
(comparing the selected mimic base's size/alignment with the rule's) has
passed, and the accessor's layout equals the underlying rule's layout in
both size and alignment; the check runs in `common`, through which both
proxy and value instantiation pass, and the default mimic layout always
satisfies it. -/
theorem C6_layout_invariant (mimicL ruleL accL : Layout)
    (hp : common_instantiate mimicL ruleL = some accL) :
    (accL.size = ruleL.size ∧ accL.align = ruleL.align)
    ∧ proxy_layout mimicL ruleL = some accL
    ∧ value_layout mimicL ruleL = some accL
    ∧ (∀ m r : Layout, (proxy_layout m r).isSome = true
        → m.size = r.size ∧ m.align = r.align)
    ∧ (∀ m r : Layout, (value_layout m r).isSome = true
        → m.size = r.size ∧ m.align = r.align)
    ∧ common_instantiate (mimic_default_layout ruleL) ruleL = some ruleL := by
  have hmain : accL.size = ruleL.size ∧ accL.align = ruleL.align := by
    unfold common_instantiate at hp
    by_cases hcond : mimicL.size = ruleL.size ∧ mimicL.align = ruleL.align
    · rw [if_pos hcond] at hp
      cases hp
      exact hcond
    · rw [if_neg hcond] at hp
      cases hp
  have hchk : ∀ m r : Layout, (common_instantiate m r).isSome = true
      → m.size = r.size ∧ m.align = r.align := by
    intro m r hmr
    unfold common_instantiate at hmr
    by_cases hcond : m.size = r.size ∧ m.align = r.align
    · exact hcond
    · rw [if_neg hcond] at hmr
      simp at hmr
  refine ⟨hmain, hp, hp, hchk, hchk, ?_⟩
  simp [common_instantiate, mimic_default_layout]

/-- C6 witness: the theorem applied to a concrete 4-byte rule layout. -/
theorem C6_layout_invariant_witness :
    ((Layout.mk 4 4).size = (Layout.mk 4 4).size
        ∧ (Layout.mk 4 4).align = (Layout.mk 4 4).align)
    ∧ proxy_layout (Layout.mk 4 4) (Layout.mk 4 4) = some (Layout.mk 4 4)
    ∧ value_layout (Layout.mk 4 4) (Layout.mk 4 4) = some (Layout.mk 4 4)
    ∧ (∀ m r : Layout, (proxy_layout m r).isSome = true
        → m.size = r.size ∧ m.align = r.align)
    ∧ (∀ m r : Layout, (value_layout m r).isSome = true
        → m.size = r.size ∧ m.align = r.align)
    ∧ common_instantiate (mimic_default_layout (Layout.mk 4 4))
        (Layout.mk 4 4) = some (Layout.mk 4 4) :=
  C6_layout_invariant (Layout.mk 4 4) (Layout.mk 4 4) (Layout.mk 4 4)
    (by decide)

/-- C7 counterexample: for a Value-backed accessor over the lossy rule
(whose `set` does not store the written value), writing 5 through the
composed member accessor and reading back through the composed accessor
yields 0, not 5 — writes through the composed member accessor are not
visible, refuting the claim as stated (which quantifies over every rule). -/
theorem C7_counterexample :
    (member_value_get lossyRule fstMember
        (member_value_set lossyRule fstMember 5 1)).1 = 0
    ∧ ((0 : Int) ≠ 5) := by
  constructor
  · rfl
  · decide

/-- C7 (amended): member composition synthesizes a rule whose `get()`
returns member `M` of the parent's current value (by reference into the
same storage for Proxy, by value for Value), and writes through the
composed member accessor are visible through the parent accessor and vice
versa — unconditionally for a Proxy-backed parent, and for a Value-backed
parent provided the parent rule's get/set pair round-trips (reading after
`set(o)` yields `o`). -/
theorem C7_member_composition {σ Obj F : Type}
    (R : ValueRule σ Obj) (M : MemberPtr Obj F)
    (hrt : ∀ (o : Obj) (s : σ), (R.get (R.set o s)).1 = o) :
    (∀ (a : ProxyAcc) (h : Nat → Obj),
        member_proxy_read a M h = M.view (h a.addr))
    ∧ (∀ s : σ, (member_value_get R M s).1 = M.view (R.get s).1)
    ∧ (∀ (a : ProxyAcc) (h : Nat → Obj) (v : F),
        member_proxy_read a M (member_proxy_write a M v h) = v)
    ∧ (∀ (a : ProxyAcc) (h : Nat → Obj) (o : Obj),
        member_proxy_read a M ((proxy_assign a o (PState.mk h 0)).heap)
          = M.view o)
    ∧ (∀ (v : F) (s : σ),
        (member_value_get R M (member_value_set R M v s)).1 = v)
    ∧ (∀ (o : Obj) (s : σ),
        (member_value_get R M (value_assign R o s)).1 = M.view o)
    ∧ (∀ k : AccessorKind, getset_member_kind k = k) := by
  refine ⟨fun a h => rfl, fun s => rfl, ?_, ?_, ?_, ?_, ?_⟩
  · intro a h v
    simp [member_proxy_read, member_proxy_write, writeRef, M.view_update]
  · intro a h o
    simp [member_proxy_read, proxy_assign, proxy_get, writeRef]
  · intro v s
    simp [member_value_get, member_value_set, hrt, M.view_update]
  · intro o s
    simp [member_value_get, value_assign, hrt]
  · intro k
    cases k <;> rfl

/-- C7 witness: the amended theorem applied to the concrete lossless
`storeRule` and the member pointer to the first pair component, projected
to the write-then-read-member instance at the pair (1, 2). -/
theorem C7_member_composition_witness :
    (member_value_get storeRule fstMember
        (member_value_set storeRule fstMember 5 (1, 2))).1 = 5 :=
  (C7_member_composition storeRule fstMember
    (fun _ _ => rfl)).2.2.2.2.1 5 (1, 2)

/-- C8: when the left operand of a forwarded binary operator is not an
accessor and the right operand is, the namespace-scope overload is
available and the expression evaluates to `left OP underlying value`; in
particular `3 + accessor` equals `3 + underlying_value` for a Value
accessor wrapping an integer. -/
theorem C8_rhs_substitution :
    (∀ (X T R σ : Type) (op : X → T → R) (x : X) (r : ValueRule σ T) (s : σ),
        fwd_rhs_op false op x r s = some (op x (r.get s).1))
    ∧ (∀ s : Int,
        fwd_rhs_op false (fun a b : Int => a + b) 3 intStoreRule s
          = some (3 + s)) := by
  constructor
  · intro X T R σ op x r s; rfl
  · intro s; rfl

/-- C9: assigning one Proxy accessor from another of the same rule type
writes the source's current referent value into the destination's referent
and returns the destination accessor unchanged (no rebind); the const and
non-const overloads behave identically, and this holds for every
underlying value type. -/
theorem C9_proxy_copy_assign {T : Type} (dest other : ProxyAcc)
    (s : PState T) :
    (proxy_assign_from_proxy_c dest other s
      = (dest, { heap := writeRef s.heap dest.addr (s.heap other.addr),
                 getCalls := s.getCalls + 1 }))
    ∧ (proxy_assign_from_proxy_m dest other s
        = proxy_assign_from_proxy_c dest other s)
    ∧ ((proxy_assign_from_proxy_c dest other s).1 = dest)
    ∧ ((proxy_assign_from_proxy_c dest other s).2.heap dest.addr
        = s.heap other.addr) := by
  refine ⟨rfl, rfl, rfl, ?_⟩
  simp [proxy_assign_from_proxy_c, proxy_assign, proxy_get, writeRef]

/-- C10: evaluation of the pointer-emulation option at the failing input
(a non-class, non-union getter-result type such as `int`): the detection is
applied to `common<GetSet_t>` itself, which declares the very member being
detected, so the option evaluates to `true` even though the selected mimic
specialization declares no marker — and `operator*` consequently yields
`get()` itself instead of dereferencing it, contradicting the intended
class/union-only default documented in the header. -/
theorem C10_pointer_emulation_always_on :
    common_pointer_emulation false = true
    ∧ common_pointer_emulation true = true
    ∧ mimic_declares_pe_marker false = false
    ∧ op_star (common_pointer_emulation false) = StarMode.yieldsGet := by
  decide


